import Mathlib

/-!
Shallow embedding of the picas client core (`picas/actors.py`) in Lean 4.

The embedding follows the Python source:
  - `AbstractRunActor.__init__`  → `Picas.initActor`
  - `AbstractRunActor._run`      → `Picas.runOne` (with the save-retry
    `while True` loop as `Picas.saveWithRetry`)
  - `AbstractRunActor.run`       → `Picas.runAbstract`
  - `AbstractRunActor.handler`   → `Picas.handlerRun`
  - `RunActor.run`               → `Picas.runActor`

External collaborators are modelled as oracles:
  - the document store answers each `db.save` call from a finite script of
    responses (`SaveResp`): success, a `ResourceConflict` (carrying the
    revision that a subsequent `db.get` would return), or another store
    error.  An exhausted script models a run in which the retry loop would
    keep retrying (it never returns).
  - the user-supplied `process_task` override is a function
    `Task → ProcessResult` that either returns the (possibly mutated) task
    or raises an exception carrying a type tag and message together with
    the task as mutated so far.
  - wall-clock `Timer.elapsed()` readings and the `stop_function` are
    oracle functions indexed by the number of tasks processed so far.
-/

namespace Picas

/-- Modelled from the spec: the Task document (class `Task` of
`picas.documents`, which is not under `src/`).  Per the spec's data model it
has an opaque identity, a data-store revision token, a `lock` field, a
`done` field, arbitrary payload fields, and a mutable error-annotation
slot; the core reads and writes only `lock`, `done`, the revision and the
error slot. -/
structure Task where
  id : String
  rev : Nat
  lock : Int
  done : Int
  payload : List (String × String)
  errors : List (String × String)
deriving DecidableEq, Repr

/-- Modelled from the spec: the task's error-annotation API
(`task.error(msg, exception=ex)` in `_run`, defined on the `Task` class of
`picas.documents`, which is not under `src/`).  It attaches an error
annotation — an error-kind tag plus message — to the task's
error-annotation slot. -/
def Task.error (t : Task) (msg : String) (exception : String) : Task :=
  { t with errors := t.errors ++ [(msg, exception)] }

/-- One store response to a `db.save` call, as raised or returned by the
couchdb client (an external collaborator): success, a `ResourceConflict`
(paired with the revision the following `db.get(task.id)` returns), or any
other store error. -/
inductive SaveResp where
  | ok : SaveResp
  | conflict : Nat → SaveResp
  | err : String → SaveResp
deriving DecidableEq, Repr

/-- Outcome of the save-retry loop of `AbstractRunActor._run`
(actors.py lines 64-72): the task as successfully saved together with the
unconsumed store script, a non-conflict store error propagating out with
the task as mutated so far, or `diverges` when the response script is
exhausted (the Python loop would still be retrying). -/
inductive SaveOutcome where
  | saved : Task → List SaveResp → SaveOutcome
  | fatal : String → Task → List SaveResp → SaveOutcome
  | diverges : Task → SaveOutcome
deriving DecidableEq, Repr

/-- The `while True:` save loop of `AbstractRunActor._run` (actors.py lines
64-72): try `db.save(task)` and stop on success; on `ResourceConflict`
re-fetch the document (`self.db.get(task.id)`), overwrite only the local
task's revision token (`task['_rev'] = new_task.rev`) and retry; any other
store error propagates. -/
def saveWithRetry : List SaveResp → Task → SaveOutcome
  | [], t => SaveOutcome.diverges t
  | SaveResp.ok :: rest, t => SaveOutcome.saved t rest
  | SaveResp.conflict r :: rest, t => saveWithRetry rest { t with rev := r }
  | SaveResp.err e :: rest, t => SaveOutcome.fatal e t rest

/-- The cumulative effect on the local task of a sequence of conflict
retries: each retry overwrites only the revision token with the re-fetched
one. -/
def setRevs (t : Task) (revs : List Nat) : Task :=
  revs.foldl (fun a r => { a with rev := r }) t

theorem setRevs_nil (t : Task) : setRevs t [] = t := rfl

theorem setRevs_cons (t : Task) (r : Nat) (rs : List Nat) :
    setRevs t (r :: rs) = setRevs { t with rev := r } rs := rfl

/-- Only the revision token is touched by the conflict retries. -/
theorem setRevs_frame (t : Task) (revs : List Nat) :
    (setRevs t revs).id = t.id ∧ (setRevs t revs).lock = t.lock ∧
    (setRevs t revs).done = t.done ∧ (setRevs t revs).payload = t.payload ∧
    (setRevs t revs).errors = t.errors := by
  induction revs generalizing t with
  | nil => exact ⟨rfl, rfl, rfl, rfl, rfl⟩
  | cons r rs ih => simpa [setRevs_cons] using ih { t with rev := r }

/-- The revision after the conflict retries is the last re-fetched one (or
the original when there was no conflict). -/
theorem setRevs_rev (t : Task) (revs : List Nat) :
    (setRevs t revs).rev = revs.getLast?.getD t.rev := by
  induction revs generalizing t with
  | nil => rfl
  | cons r rs ih =>
    rcases rs with _ | ⟨r2, rs2⟩
    · rfl
    · simpa [setRevs_cons] using ih { t with rev := r }

/-- Leading conflicts in the store script are consumed one retry apiece,
each updating only the local revision. -/
theorem saveWithRetry_conflicts (t : Task) (revs : List Nat)
    (l : List SaveResp) :
    saveWithRetry (List.map SaveResp.conflict revs ++ l) t
      = saveWithRetry l (setRevs t revs) := by
  induction revs generalizing t with
  | nil => rfl
  | cons r rs ih => simpa [saveWithRetry, setRevs_cons] using ih { t with rev := r }

/-- C3: the per-task save returns only after a save to the store has
succeeded, retrying for every write-conflict error (any number of them: the
loop reaches the first non-conflict response no matter how many conflicts
precede it); a store error other than a write conflict is not retried and
propagates out of the save step as a fatal outcome. -/
theorem save_retries_conflicts_only (t : Task) (revs : List Nat)
    (rest : List SaveResp) (e : String) :
    saveWithRetry (List.map SaveResp.conflict revs ++ SaveResp.ok :: rest) t
      = SaveOutcome.saved (setRevs t revs) rest ∧
    saveWithRetry (List.map SaveResp.conflict revs ++ SaveResp.err e :: rest) t
      = SaveOutcome.fatal e (setRevs t revs) rest := by
  constructor
  · rw [saveWithRetry_conflicts]; rfl
  · rw [saveWithRetry_conflicts]; rfl

/-- C4: on every write-conflict the worker re-fetches the current revision
and changes only the revision token of its local task before retrying:
after any sequence of conflicts followed by a successful save, the saved
document equals the worker's local task with only the revision replaced by
the last re-fetched one — id, lock, done, payload and error annotations
are the worker's values, not the interleaved writer's. -/
theorem conflict_retry_frame (t : Task) (revs : List Nat)
    (rest : List SaveResp) :
    saveWithRetry (List.map SaveResp.conflict revs ++ SaveResp.ok :: rest) t
      = SaveOutcome.saved (setRevs t revs) rest ∧
    (setRevs t revs).id = t.id ∧ (setRevs t revs).lock = t.lock ∧
    (setRevs t revs).done = t.done ∧ (setRevs t revs).payload = t.payload ∧
    (setRevs t revs).errors = t.errors ∧
    (setRevs t revs).rev = revs.getLast?.getD t.rev := by
  refine ⟨?_, (setRevs_frame t revs).1, (setRevs_frame t revs).2.1,
    (setRevs_frame t revs).2.2.1, (setRevs_frame t revs).2.2.2.1,
    (setRevs_frame t revs).2.2.2.2, setRevs_rev t revs⟩
  rw [saveWithRetry_conflicts]; rfl

/-- The tracked subprocess handle (`self.subprocess`), as the shutdown
handler observes it: whether `poll()` reports it still running, and — as an
oracle — whether it exits within the 30-second grace period of
`communicate(timeout=30)`. -/
structure Subproc where
  running : Bool
  exitsWithinGrace : Bool
deriving DecidableEq, Repr

/-- The actor's mutable fields set up by `AbstractRunActor.__init__`
(actors.py lines 26-46): the current task (None between cycles), the
tracked subprocess handle, the processed-task counter and the configured
`token_reset_values` pair (`none` is the disabled sentinel for Python's
`token_reset_values=None`). -/
structure ActorState where
  current_task : Option Task
  subprocess : Option Subproc
  tasks_processed : Nat
  token_reset_values : Option (Int × Int)
deriving DecidableEq, Repr

/-- Result of the user-supplied `process_task` override: normal return
with the task as mutated, or an exception carrying its type tag and
message together with the task as mutated up to the raise (the Python
`task` object keeps in-place mutations made before the exception). -/
inductive ProcessResult where
  | ok : Task → ProcessResult
  | raised : Task → String → String → ProcessResult
deriving DecidableEq, Repr

/-- The message `_run` formats for a processing exception (actors.py lines
59-60). -/
def errMsg (ty m : String) : String :=
  "Exception " ++ ty ++ " occurred during processing: " ++ m

/-- Observable events of a run, used to state ordering and
exactly-once properties. -/
inductive Event where
  | prepareEnv : Event
  | setupHandler : Event
  | prepareRun : Event
  | setCurrent : String → Event
  | processed : String → Event
  | errorLogged : String → Event
  | saveOk : Event
  | cleanupRun : Event
  | clearCurrent : Event
  | cleanupEnv : Event
  | subprocTerminate : Event
  | subprocWait : Nat → Event
  | subprocKill : Event
  | subprocReap : Event
  | handlerSave : Task → Event
  | exitProc : Nat → Event
deriving DecidableEq, Repr

/-- Whether an event is a run of the environment-teardown hook
`cleanup_env`. -/
def Event.isCleanupEnv : Event → Bool
  | Event.cleanupEnv => true
  | _ => false

/-- Errors that propagate out of a task cycle: a non-conflict store error
from `db.save`, or the exhaustion of the store script (modelling a retry
loop that never returns). -/
inductive RunError where
  | storeError : String → RunError
  | dbScriptExhausted : RunError
  | systemExit : Nat → RunError
deriving DecidableEq, Repr

/-- What one call of `AbstractRunActor._run` leaves behind: its event
trace, the actor state, the unconsumed store script, an error if one
propagated out of `_run`, and the task as successfully saved (if the save
succeeded). -/
structure StepResult where
  trace : List Event
  state : ActorState
  db : List SaveResp
  error : Option RunError
  savedTask : Option Task
deriving DecidableEq, Repr

/-- `AbstractRunActor._run` (actors.py lines 48-75): run `prepare_run`,
set `current_task` to the task, invoke `process_task` catching any
exception into an error annotation plus log line, then the unconditional
save-retry loop, then `cleanup_run` and the counter increment.  Because
`self.current_task` aliases `task` in Python, the embedding keeps
`current_task` equal to the task as mutated so far at every stage; on a
propagating save error, `cleanup_run` does not run, the counter is not
incremented and `current_task` is still set. -/
def runOne (process : Task → ProcessResult) (db : List SaveResp)
    (s : ActorState) (task : Task) : StepResult :=
  let t2 := match process task with
    | ProcessResult.ok t' => t'
    | ProcessResult.raised t' ty m => t'.error (errMsg ty m) ty
  let procTrace := match process task with
    | ProcessResult.ok _ => [Event.processed task.id]
    | ProcessResult.raised _ ty m => [Event.errorLogged (errMsg ty m)]
  let pre := [Event.prepareRun, Event.setCurrent task.id] ++ procTrace
  match saveWithRetry db t2 with
  | SaveOutcome.saved t3 rest =>
    { trace := pre ++ [Event.saveOk, Event.cleanupRun],
      state := { s with current_task := some t3,
                        tasks_processed := s.tasks_processed + 1 },
      db := rest, error := none, savedTask := some t3 }
  | SaveOutcome.fatal e t3 rest =>
    { trace := pre,
      state := { s with current_task := some t3 },
      db := rest, error := some (RunError.storeError e), savedTask := none }
  | SaveOutcome.diverges t3 =>
    { trace := pre,
      state := { s with current_task := some t3 },
      db := [], error := some RunError.dbScriptExhausted, savedTask := none }

/-- Result of a whole run: trace, final state, unconsumed store script,
the error that propagated out of the loop (if any), and the successfully
saved tasks in order. -/
structure LoopResult where
  trace : List Event
  state : ActorState
  db : List SaveResp
  error : Option RunError
  savedTasks : List Task
deriving DecidableEq, Repr

/-- The `for task in self.iterator` loop of `AbstractRunActor.run`
(actors.py lines 89-91): each task goes through `_run` and then
`current_task` is cleared; an error out of `_run` ends the loop (it
propagates to the `finally`). -/
def abstractLoop (process : Task → ProcessResult) :
    List SaveResp → ActorState → List Task → LoopResult
  | db, s, [] =>
    { trace := [], state := s, db := db, error := none, savedTasks := [] }
  | db, s, task :: rest =>
    let r := runOne process db s task
    match r.error with
    | some e =>
      { trace := r.trace, state := r.state, db := r.db, error := some e,
        savedTasks := [] }
    | none =>
      let r2 := abstractLoop process r.db
        { r.state with current_task := none } rest
      { trace := r.trace ++ [Event.clearCurrent] ++ r2.trace,
        state := r2.state, db := r2.db, error := r2.error,
        savedTasks := r.savedTask.toList ++ r2.savedTasks }

/-- `AbstractRunActor.run` (actors.py lines 77-93): install the signal
handler, start the timer, run `prepare_env`, iterate, and run
`cleanup_env` in a `finally` — so it runs whether the loop completed or an
error propagated out of it. -/
def runAbstract (process : Task → ProcessResult) (db : List SaveResp)
    (s : ActorState) (tasks : List Task) : LoopResult :=
  let r := abstractLoop process db s tasks
  { r with trace := Event.setupHandler :: Event.prepareEnv :: r.trace
      ++ [Event.cleanupEnv] }

/-- The stop configuration of `RunActor.run`: `max_time` (with `none` for
Python's default `None`), `avg_time_factor` and `max_tasks` (0 is Python's
falsy default, disabling the count criterion).  Float quantities are
embedded as rationals. -/
structure StopCfg where
  max_time : Option ℚ
  avg_time_factor : ℚ
  max_tasks : Nat
deriving DecidableEq

/-- The `for` loop of `RunActor.run` (actors.py lines 199-219): after each
`_run`, evaluate in order the custom stop function, the
`max_tasks and tasks_processed == max_tasks` criterion and the
`elapsed + avg_time_factor > max_time` projection, breaking when one
fires; only when none fires is `current_task` cleared before the next
iteration.  `stopFn` and `elapsed` are oracles indexed by the value of
`tasks_processed` at the check. -/
def runActorLoop (process : Task → ProcessResult)
    (stopFn : Option (Nat → Bool)) (elapsed : Nat → ℚ) (cfg : StopCfg) :
    List SaveResp → ActorState → List Task → LoopResult
  | db, s, [] =>
    { trace := [], state := s, db := db, error := none, savedTasks := [] }
  | db, s, task :: rest =>
    let r := runOne process db s task
    match r.error with
    | some e =>
      { trace := r.trace, state := r.state, db := r.db, error := some e,
        savedTasks := [] }
    | none =>
      let n := r.state.tasks_processed
      if (stopFn.map (fun f => f n)).getD false then
        { trace := r.trace, state := r.state, db := r.db, error := none,
          savedTasks := r.savedTask.toList }
      else if cfg.max_tasks != 0 && (n == cfg.max_tasks) then
        { trace := r.trace, state := r.state, db := r.db, error := none,
          savedTasks := r.savedTask.toList }
      else if (cfg.max_time.map
          (fun mt => decide (elapsed n + cfg.avg_time_factor > mt))).getD
          false then
        { trace := r.trace, state := r.state, db := r.db, error := none,
          savedTasks := r.savedTask.toList }
      else
        let r2 := runActorLoop process stopFn elapsed cfg r.db
          { r.state with current_task := none } rest
        { trace := r.trace ++ [Event.clearCurrent] ++ r2.trace,
          state := r2.state, db := r2.db, error := r2.error,
          savedTasks := r.savedTask.toList ++ r2.savedTasks }

/-- `RunActor.run` (actors.py lines 170-221): timer, `prepare_env`,
`setup_handler`, the loop with stop logic, and `cleanup_env` in a
`finally`. -/
def runActor (process : Task → ProcessResult)
    (stopFn : Option (Nat → Bool)) (elapsed : Nat → ℚ) (cfg : StopCfg)
    (db : List SaveResp) (s : ActorState) (tasks : List Task) : LoopResult :=
  let r := runActorLoop process stopFn elapsed cfg db s tasks
  { r with trace := Event.prepareEnv :: Event.setupHandler :: r.trace
      ++ [Event.cleanupEnv] }

/-- Result of one invocation of the shutdown handler: its event trace and
the task it saved, if it called `db.save` at all. -/
structure HandlerResult where
  trace : List Event
  savedTask : Option Task
deriving DecidableEq, Repr

/-- The subprocess-cleanup step of `AbstractRunActor.handler` (actors.py
lines 108-116): if a tracked subprocess exists and `poll()` says it is
still running, `terminate()` it and `communicate(timeout=30)`; if the
30-second grace period expires, `kill()` it and `communicate()` to reap
it. -/
def subprocStep : Option Subproc → List Event
  | none => []
  | some p =>
    if p.running then
      if p.exitsWithinGrace then
        [Event.subprocTerminate, Event.subprocWait 30]
      else
        [Event.subprocTerminate, Event.subprocWait 30, Event.subprocKill,
         Event.subprocReap]
    else []

/-- `AbstractRunActor.handler` (actors.py lines 95-125): first the
subprocess cleanup, then — only if `current_task` is set and
`token_reset_values` is not the disabled `None` sentinel — overwrite the
task's `lock` and `done` fields with the configured reset pair and save it
(a single save attempt, no conflict retry), then `cleanup_env`, then
`exit(0)`. -/
def handlerRun (s : ActorState) : HandlerResult :=
  let sub := subprocStep s.subprocess
  match s.current_task, s.token_reset_values with
  | some t, some (l, d) =>
    let t2 := { t with lock := l, done := d }
    { trace := sub ++ [Event.handlerSave t2, Event.cleanupEnv,
        Event.exitProc 0],
      savedTask := some t2 }
  | some _, none =>
    { trace := sub ++ [Event.cleanupEnv, Event.exitProc 0],
      savedTask := none }
  | none, _ =>
    { trace := sub ++ [Event.cleanupEnv, Event.exitProc 0],
      savedTask := none }

/-- `AbstractRunActor.__init__` (actors.py lines 26-46): a `None` database
raises `ValueError("Database must be initialized")` before any state is
set; otherwise the actor starts with no current task, no tracked
subprocess, zero tasks processed and the given `token_reset_values` (the
database handle itself is opaque to the embedding). -/
def initActor (db : Option Nat) (token_reset_values : Option (Int × Int)) :
    Except String ActorState :=
  match db with
  | none => Except.error "Database must be initialized"
  | some _ => Except.ok
      { current_task := none, subprocess := none, tasks_processed := 0,
        token_reset_values := token_reset_values }

/-- The loop of `RunActor.run` when a termination signal arrives at the
start of iteration number `sigAt` (counting from 0).  CPython runs signal
handlers synchronously on the main thread between bytecodes, and the
handler's final `exit(0)` raises `SystemExit`, which propagates from the
interruption point out through the enclosing frames — so the loop ends
with a `SystemExit` error that the surrounding `try`/`finally` of
`RunActor.run` will see. -/
def runActorLoopSig (process : Task → ProcessResult)
    (stopFn : Option (Nat → Bool)) (elapsed : Nat → ℚ) (cfg : StopCfg)
    (sigAt : Nat) :
    List SaveResp → ActorState → Nat → List Task → LoopResult
  | db, s, _, [] =>
    { trace := [], state := s, db := db, error := none, savedTasks := [] }
  | db, s, i, task :: rest =>
    if i = sigAt then
      { trace := (handlerRun s).trace, state := s, db := db,
        error := some (RunError.systemExit 0), savedTasks := [] }
    else
      let r := runOne process db s task
      match r.error with
      | some e =>
        { trace := r.trace, state := r.state, db := r.db, error := some e,
          savedTasks := [] }
      | none =>
        let n := r.state.tasks_processed
        if (stopFn.map (fun f => f n)).getD false then
          { trace := r.trace, state := r.state, db := r.db, error := none,
            savedTasks := r.savedTask.toList }
        else if cfg.max_tasks != 0 && (n == cfg.max_tasks) then
          { trace := r.trace, state := r.state, db := r.db, error := none,
            savedTasks := r.savedTask.toList }
        else if (cfg.max_time.map
            (fun mt => decide (elapsed n + cfg.avg_time_factor > mt))).getD
            false then
          { trace := r.trace, state := r.state, db := r.db, error := none,
            savedTasks := r.savedTask.toList }
        else
          let r2 := runActorLoopSig process stopFn elapsed cfg sigAt r.db
            { r.state with current_task := none } (i + 1) rest
          { trace := r.trace ++ [Event.clearCurrent] ++ r2.trace,
            state := r2.state, db := r2.db, error := r2.error,
            savedTasks := r.savedTask.toList ++ r2.savedTasks }

/-- `RunActor.run` interrupted by a termination signal at the start of
iteration `sigAt`: the handler runs (its trace includes its own
`cleanup_env` call on actors.py line 124), its `exit(0)` raises
`SystemExit` through the loop, and the `finally` of `RunActor.run` then
runs `cleanup_env` again before the exception continues to terminate the
process. -/
def runActorSig (process : Task → ProcessResult)
    (stopFn : Option (Nat → Bool)) (elapsed : Nat → ℚ) (cfg : StopCfg)
    (sigAt : Nat) (db : List SaveResp) (s : ActorState)
    (tasks : List Task) : LoopResult :=
  let r := runActorLoopSig process stopFn elapsed cfg sigAt db s 0 tasks
  { r with trace := Event.prepareEnv :: Event.setupHandler :: r.trace
      ++ [Event.cleanupEnv] }

/-- A sample task used for concrete runs. -/
def task1 : Task :=
  { id := "t1", rev := 1, lock := 1, done := 0,
    payload := [("input", "x")], errors := [] }

/-- A second sample task used for concrete runs. -/
def task2 : Task :=
  { id := "t2", rev := 1, lock := 1, done := 0, payload := [],
    errors := [] }

/-- The identity processing capability: `process_task` succeeds without
mutating the task. -/
def pureProcess : Task → ProcessResult := fun t => ProcessResult.ok t

/-- The actor state right after a successful `__init__` with the default
`token_reset_values=[0, 0]`. -/
def initState : ActorState :=
  { current_task := none, subprocess := none, tasks_processed := 0,
    token_reset_values := some (0, 0) }

/-- C10: constructing an actor with no database raises
`ValueError("Database must be initialized")` before any state is
initialized, and for every non-None database handle the constructor
succeeds with an empty current task, no tracked subprocess and a zero
processed-task counter, storing the given token-reset values. -/
theorem init_validates_db :
    initActor none (some (0, 0)) = Except.error "Database must be initialized" ∧
    initActor none none = Except.error "Database must be initialized" ∧
    ∀ (h : Nat) (v : Option (Int × Int)),
      initActor (some h) v = Except.ok
        { current_task := none, subprocess := none, tasks_processed := 0,
          token_reset_values := v } :=
  ⟨rfl, rfl, fun _ _ => rfl⟩

/-- C5: the shutdown handler calls `db.save` on a task if and only if
`current_task` is non-empty and `token_reset_values` is not the disabled
`None` sentinel; when it saves, the persisted task's `lock` and `done`
fields equal the configured reset pair.  With an empty `current_task`, or
with token reset disabled, the handler saves nothing. -/
theorem handler_save_iff (s : ActorState) :
    ((handlerRun s).savedTask.isSome ↔
      (s.current_task.isSome ∧ s.token_reset_values.isSome)) ∧
    (∀ (t : Task) (l d : Int),
      s.current_task = some t → s.token_reset_values = some (l, d) →
      (handlerRun s).savedTask = some { t with lock := l, done := d }) ∧
    (s.current_task = none → (handlerRun s).savedTask = none) ∧
    (s.token_reset_values = none → (handlerRun s).savedTask = none) := by
  obtain ⟨ct, sp, tp, trv⟩ := s
  rcases ct with _ | t <;> rcases trv with _ | ⟨l, d⟩ <;>
    simp [handlerRun]

/-- Witness for C5: a concrete mid-task state with reset pair (3, 4). -/
theorem handler_save_iff_witness :
    (handlerRun { current_task := some task1, subprocess := none,
                  tasks_processed := 0,
                  token_reset_values := some (3, 4) }).savedTask
      = some { task1 with lock := 3, done := 4 } :=
  (handler_save_iff _).2.1 task1 3 4 rfl rfl

/-- C6: the shutdown handler's steps occur in a fixed order: if a tracked
subprocess exists and is still alive it is sent a graceful terminate and
waited on for up to the 30-second grace period, then force-killed and
reaped if it has not exited; only then is the task state reverted and
saved; then the teardown hook runs; then the process exits with status
0. -/
theorem handler_step_order (s : ActorState) (t : Task) (l d : Int) :
    s.current_task = some t → s.token_reset_values = some (l, d) →
    ((s.subprocess = some { running := true, exitsWithinGrace := false } →
      (handlerRun s).trace =
        [Event.subprocTerminate, Event.subprocWait 30, Event.subprocKill,
         Event.subprocReap,
         Event.handlerSave { t with lock := l, done := d },
         Event.cleanupEnv, Event.exitProc 0]) ∧
    (s.subprocess = some { running := true, exitsWithinGrace := true } →
      (handlerRun s).trace =
        [Event.subprocTerminate, Event.subprocWait 30,
         Event.handlerSave { t with lock := l, done := d },
         Event.cleanupEnv, Event.exitProc 0]) ∧
    (∀ b, s.subprocess = some { running := false, exitsWithinGrace := b } →
      (handlerRun s).trace =
        [Event.handlerSave { t with lock := l, done := d },
         Event.cleanupEnv, Event.exitProc 0]) ∧
    (s.subprocess = none →
      (handlerRun s).trace =
        [Event.handlerSave { t with lock := l, done := d },
         Event.cleanupEnv, Event.exitProc 0])) := by
  intro h1 h2
  refine ⟨fun h3 => ?_, fun h3 => ?_, fun b h3 => ?_, fun h3 => ?_⟩ <;>
    simp [handlerRun, subprocStep, h1, h2, h3]

/-- Witness for C6: a concrete state with a still-running subprocess that
ignores the grace period. -/
theorem handler_step_order_witness :
    (handlerRun { current_task := some task1,
                  subprocess := some { running := true,
                                       exitsWithinGrace := false },
                  tasks_processed := 1,
                  token_reset_values := some (0, 0) }).trace =
      [Event.subprocTerminate, Event.subprocWait 30, Event.subprocKill,
       Event.subprocReap, Event.handlerSave { task1 with lock := 0, done := 0 },
       Event.cleanupEnv, Event.exitProc 0] :=
  (handler_step_order _ task1 0 0 rfl rfl).1 rfl

/-- In `AbstractRunActor.run` the loop body clears `current_task` right
after each `_run`, so an error-free run over any task list (here: with a
store script of one successful save per task) ends with `current_task`
empty. -/
theorem abstractLoop_clears_current (process : Task → ProcessResult) :
    ∀ (tasks : List Task) (s : ActorState), s.current_task = none →
    (abstractLoop process (List.replicate tasks.length SaveResp.ok) s
      tasks).state.current_task = none := by
  intro tasks
  induction tasks with
  | nil => intro s h; simpa [abstractLoop] using h
  | cons task rest ih =>
    intro s _
    cases hp : process task with
    | ok t' =>
      simpa [abstractLoop, runOne, hp, saveWithRetry, List.replicate_succ]
        using ih _ rfl
    | raised t' ty m =>
      simpa [abstractLoop, runOne, hp, saveWithRetry, List.replicate_succ]
        using ih _ rfl

/-- C1 counterexample: in `RunActor.run` the clearing of `current_task`
(actors.py line 219) happens after the stop checks, so when the loop
breaks on a stop criterion `current_task` still holds the just-completed
task.  Concretely: two available tasks, `max_tasks=1`, everything
succeeding — after the run, `current_task` is the first task, not
empty. -/
theorem currentTask_set_after_break :
    (runActor pureProcess none (fun _ => 0)
      { max_time := none, avg_time_factor := 0, max_tasks := 1 }
      [SaveResp.ok, SaveResp.ok] initState
      [task1, task2]).state.current_task = some task1 ∧
    (runActor pureProcess none (fun _ => 0)
      { max_time := none, avg_time_factor := 0, max_tasks := 1 }
      [SaveResp.ok, SaveResp.ok] initState
      [task1, task2]).state.current_task ≠ none := by
  constructor
  · rfl
  · decide

/-- C1 amended: in `AbstractRunActor.run` (which has no stop policy)
`current_task` is cleared immediately after each task cycle, so an
error-free run ends with it empty; in `RunActor.run` the clear happens
only after the stop checks pass, so when the loop breaks on a stop
criterion (here `max_tasks=1` with two tasks) `current_task` still holds
the last processed task after the run. -/
theorem currentTask_cleared_after_stop_checks :
    (∀ (process : Task → ProcessResult) (tasks : List Task),
      (runAbstract process (List.replicate tasks.length SaveResp.ok)
        initState tasks).state.current_task = none) ∧
    (∀ t u : Task,
      (runActor pureProcess none (fun _ => 0)
        { max_time := none, avg_time_factor := 0, max_tasks := 1 }
        [SaveResp.ok, SaveResp.ok] initState
        [t, u]).state.current_task = some t) := by
  constructor
  · intro process tasks
    simpa [runAbstract] using
      abstractLoop_clears_current process tasks initState rfl
  · intro t u
    rfl

/-- C2: any error raised by `process_task` during a task cycle is caught
and recorded on the task as an error annotation (the formatted message
plus the exception kind) and logged, and does not propagate out of `_run`;
the save step still runs unconditionally (here through an arbitrary number
of conflict retries), so the persisted task carries the error annotation
and the counter still increments; and the loop continues to the next task
(a 2-task run where the first raises processes both tasks without
error). -/
theorem processing_error_contained
    (process : Task → ProcessResult) (s : ActorState) (t t' u u' : Task)
    (ty m : String) (revs : List Nat)
    (hrt : process t = ProcessResult.raised t' ty m)
    (hu : process u = ProcessResult.ok u') :
    (runOne process (List.map SaveResp.conflict revs ++ [SaveResp.ok])
      s t).error = none ∧
    (runOne process (List.map SaveResp.conflict revs ++ [SaveResp.ok])
      s t).savedTask = some (setRevs (t'.error (errMsg ty m) ty) revs) ∧
    (errMsg ty m, ty) ∈ (setRevs (t'.error (errMsg ty m) ty) revs).errors ∧
    (runOne process (List.map SaveResp.conflict revs ++ [SaveResp.ok])
      s t).state.tasks_processed = s.tasks_processed + 1 ∧
    (runAbstract process
      (List.map SaveResp.conflict revs ++ [SaveResp.ok, SaveResp.ok])
      s [t, u]).error = none ∧
    (runAbstract process
      (List.map SaveResp.conflict revs ++ [SaveResp.ok, SaveResp.ok])
      s [t, u]).state.tasks_processed = s.tasks_processed + 2 := by
  have hs1 : saveWithRetry (List.map SaveResp.conflict revs ++ [SaveResp.ok])
      (t'.error (errMsg ty m) ty)
      = SaveOutcome.saved (setRevs (t'.error (errMsg ty m) ty) revs) [] := by
    rw [saveWithRetry_conflicts]; rfl
  have hs2 : saveWithRetry
      (List.map SaveResp.conflict revs ++ [SaveResp.ok, SaveResp.ok])
      (t'.error (errMsg ty m) ty)
      = SaveOutcome.saved (setRevs (t'.error (errMsg ty m) ty) revs)
          [SaveResp.ok] := by
    have : List.map SaveResp.conflict revs ++ [SaveResp.ok, SaveResp.ok]
        = List.map SaveResp.conflict revs
            ++ SaveResp.ok :: [SaveResp.ok] := rfl
    rw [this, saveWithRetry_conflicts]; rfl
  refine ⟨?_, ?_, ?_, ?_, ?_, ?_⟩
  · simp [runOne, hrt, hs1]
  · simp [runOne, hrt, hs1]
  · rw [(setRevs_frame (t'.error (errMsg ty m) ty) revs).2.2.2.2]
    simp [Task.error]
  · simp [runOne, hrt, hs1]
  · simp [runAbstract, abstractLoop, runOne, hrt, hu, hs2, saveWithRetry]
  · simp [runAbstract, abstractLoop, runOne, hrt, hu, hs2, saveWithRetry]

/-- A concrete processing capability that raises `ValueError("boom")` on
the task with id t1 and succeeds on every other task. -/
def witProcess : Task → ProcessResult := fun t =>
  if t.id = "t1" then ProcessResult.raised t "ValueError" "boom"
  else ProcessResult.ok t

/-- Witness for C2: concrete 2-task run whose first task raises; both
cycles complete and no error propagates. -/
theorem processing_error_contained_witness :
    (runAbstract witProcess
      (List.map SaveResp.conflict [5] ++ [SaveResp.ok, SaveResp.ok])
      initState [task1, task2]).error = none ∧
    (runAbstract witProcess
      (List.map SaveResp.conflict [5] ++ [SaveResp.ok, SaveResp.ok])
      initState [task1, task2]).state.tasks_processed
      = initState.tasks_processed + 2 :=
  ⟨(processing_error_contained witProcess initState task1 task1 task2 task2
      "ValueError" "boom" [5] (by decide) (by decide)).2.2.2.2.1,
   (processing_error_contained witProcess initState task1 task1 task2 task2
      "ValueError" "boom" [5] (by decide) (by decide)).2.2.2.2.2⟩

/-- A single task cycle never runs the environment-teardown hook. -/
theorem runOne_no_cleanupEnv (process : Task → ProcessResult)
    (db : List SaveResp) (s : ActorState) (task : Task) :
    List.countP Event.isCleanupEnv (runOne process db s task).trace = 0 := by
  cases hp : process task with
  | ok t' =>
    cases hs : saveWithRetry db t' <;>
      simp [runOne, hp, hs, Event.isCleanupEnv]
  | raised t' ty m =>
    cases hs : saveWithRetry db (t'.error (errMsg ty m) ty) <;>
      simp [runOne, hp, hs, Event.isCleanupEnv]

/-- The loop body of `RunActor.run` never runs the environment-teardown
hook: only the `finally` does. -/
theorem runActorLoop_no_cleanupEnv (process : Task → ProcessResult)
    (stopFn : Option (Nat → Bool)) (elapsed : Nat → ℚ) (cfg : StopCfg) :
    ∀ (tasks : List Task) (db : List SaveResp) (s : ActorState),
    List.countP Event.isCleanupEnv
      (runActorLoop process stopFn elapsed cfg db s tasks).trace = 0 := by
  intro tasks
  induction tasks with
  | nil => intro db s; simp [runActorLoop]
  | cons task rest ih =>
    intro db s
    cases h : (runOne process db s task).error with
    | some e => simp [runActorLoop, h, runOne_no_cleanupEnv]
    | none =>
      simp only [runActorLoop, h]
      split_ifs <;>
        simp [List.countP_append, runOne_no_cleanupEnv, ih,
          Event.isCleanupEnv]

/-- The loop body of `AbstractRunActor.run` never runs the
environment-teardown hook: only the `finally` does. -/
theorem abstractLoop_no_cleanupEnv (process : Task → ProcessResult) :
    ∀ (tasks : List Task) (db : List SaveResp) (s : ActorState),
    List.countP Event.isCleanupEnv
      (abstractLoop process db s tasks).trace = 0 := by
  intro tasks
  induction tasks with
  | nil => intro db s; simp [abstractLoop]
  | cons task rest ih =>
    intro db s
    cases h : (runOne process db s task).error with
    | some e => simp [abstractLoop, h, runOne_no_cleanupEnv]
    | none =>
      simp [abstractLoop, h, List.countP_append, runOne_no_cleanupEnv, ih,
        Event.isCleanupEnv]

/-- C7 counterexample: when a termination signal arrives during the loop,
the `finally` of `RunActor.run` is NOT bypassed.  The handler runs its own
`cleanup_env` (actors.py line 124) and then `exit(0)` raises `SystemExit`,
which unwinds through the loop's `try` and triggers the `finally`
(actors.py lines 220-221), so `cleanup_env` runs twice in the trace —
not once, and not only the handler's call. -/
theorem cleanupEnv_twice_on_signal :
    List.countP Event.isCleanupEnv
      (runActorSig pureProcess none (fun _ => 0)
        { max_time := none, avg_time_factor := 0, max_tasks := 0 } 1
        [SaveResp.ok, SaveResp.ok] initState [task1, task2]).trace = 2 := by
  decide

/-- C7 amended: the environment-teardown hook runs exactly once when the
run loop ends on its own — whether the source is exhausted, a stop
criterion fires, or the body raises (a fatal store error) — in both
`RunActor.run` and `AbstractRunActor.run`; but when the shutdown handler
terminates the run from inside the loop, its `exit(0)` raises `SystemExit`
through the loop's `try`, so the loop's `finally` teardown runs in
addition to the handler's own teardown call (twice in total), rather than
being bypassed. -/
theorem teardown_once_unless_handler_exits :
    (∀ (process : Task → ProcessResult) (stopFn : Option (Nat → Bool))
       (elapsed : Nat → ℚ) (cfg : StopCfg) (db : List SaveResp)
       (s : ActorState) (tasks : List Task),
      List.countP Event.isCleanupEnv
        (runActor process stopFn elapsed cfg db s tasks).trace = 1) ∧
    (∀ (process : Task → ProcessResult) (db : List SaveResp)
       (s : ActorState) (tasks : List Task),
      List.countP Event.isCleanupEnv
        (runAbstract process db s tasks).trace = 1) ∧
    List.countP Event.isCleanupEnv
      (runActorSig pureProcess none (fun _ => 0)
        { max_time := none, avg_time_factor := 0, max_tasks := 0 } 1
        [SaveResp.ok, SaveResp.ok] initState [task2, task1]).trace = 2 := by
  refine ⟨fun process stopFn elapsed cfg db s tasks => ?_,
    fun process db s tasks => ?_, by decide⟩
  · simp [runActor, List.countP_append, List.countP_cons,
      runActorLoop_no_cleanupEnv, Event.isCleanupEnv]
  · simp [runAbstract, List.countP_append, List.countP_cons,
      abstractLoop_no_cleanupEnv, Event.isCleanupEnv]

/-- On a 2-task run with only the `max_time` criterion active, the cycle
count is 1 when the projection exceeds `max_time` after the first cycle
and 2 otherwise. -/
theorem runActor_two_maxTime (e avg mt : ℚ) (t u : Task) :
    (runActor pureProcess none (fun _ => e)
      { max_time := some mt, avg_time_factor := avg, max_tasks := 0 }
      [SaveResp.ok, SaveResp.ok] initState [t, u]).state.tasks_processed
      = if e + avg > mt then 1 else 2 := by
  by_cases h : e + avg > mt <;>
    simp [runActor, runActorLoop, runOne, pureProcess, saveWithRetry,
      initState, h]

/-- C8: with `max_time` set (and the other criteria disabled), the loop
stops after a completed task cycle exactly when the projection
`elapsed + avg_time_factor` is strictly greater than `max_time`: a 2-task
run executes 1 cycle when the projection exceeds `max_time` after the
first cycle and 2 cycles otherwise; at the claim's boundary
(`max_time = 10`, `avg_time_factor = 2`) the loop continues when elapsed
equals 8 and stops when elapsed is 8.0001. -/
theorem max_time_projection_stop (e avg mt : ℚ) (t u : Task) :
    ((runActor pureProcess none (fun _ => e)
      { max_time := some mt, avg_time_factor := avg, max_tasks := 0 }
      [SaveResp.ok, SaveResp.ok] initState [t, u]).state.tasks_processed
      = if e + avg > mt then 1 else 2) ∧
    (runActor pureProcess none (fun _ => (8 : ℚ))
      { max_time := some (10 : ℚ), avg_time_factor := (2 : ℚ),
        max_tasks := 0 }
      [SaveResp.ok, SaveResp.ok] initState
      [task1, task2]).state.tasks_processed = 2 ∧
    (runActor pureProcess none (fun _ => (8.0001 : ℚ))
      { max_time := some (10 : ℚ), avg_time_factor := (2 : ℚ),
        max_tasks := 0 }
      [SaveResp.ok, SaveResp.ok] initState
      [task1, task2]).state.tasks_processed = 1 := by
  refine ⟨runActor_two_maxTime e avg mt t u, ?_, ?_⟩
  · rw [runActor_two_maxTime]
    norm_num
  · rw [runActor_two_maxTime]
    norm_num

/-- Behaviour of the `RunActor.run` loop under the `max_tasks` criterion
alone: starting below the ceiling, the counter ends at the ceiling or at
exhaustion of the source, whichever is smaller, and one task is saved per
executed cycle. -/
theorem runActorLoop_maxTasks (m : Nat) :
    ∀ (tasks : List Task) (s : ActorState), s.tasks_processed < m →
    (runActorLoop pureProcess none (fun _ => 0)
        { max_time := none, avg_time_factor := 0, max_tasks := m }
        (List.replicate tasks.length SaveResp.ok) s
        tasks).state.tasks_processed
      = min m (s.tasks_processed + tasks.length) ∧
    (runActorLoop pureProcess none (fun _ => 0)
        { max_time := none, avg_time_factor := 0, max_tasks := m }
        (List.replicate tasks.length SaveResp.ok) s
        tasks).savedTasks.length
      = min m (s.tasks_processed + tasks.length) - s.tasks_processed := by
  intro tasks
  induction tasks with
  | nil =>
    intro s hs
    constructor
    · simp [runActorLoop]
      omega
    · simp [runActorLoop]
  | cons task rest ih =>
    intro s hs
    have hm0 : (m != 0) = true := by
      simp [bne_iff_ne]
      omega
    by_cases hm : s.tasks_processed + 1 = m
    · have hmeq : (s.tasks_processed + 1 == m) = true := by
        simpa using hm
      constructor <;>
        · simp [runActorLoop, runOne, pureProcess, saveWithRetry,
            List.replicate_succ, hm0, hmeq]
          omega
    · have hmeq : (s.tasks_processed + 1 == m) = false := by
        simpa using hm
      have hlt : s.tasks_processed + 1 < m := by omega
      have h1 := (ih ⟨none, s.subprocess, s.tasks_processed + 1,
        s.token_reset_values⟩ hlt).1
      have h2 := (ih ⟨none, s.subprocess, s.tasks_processed + 1,
        s.token_reset_values⟩ hlt).2
      constructor
      · simp only [runActorLoop, runOne, pureProcess, saveWithRetry,
          List.replicate_succ, List.length_cons, hm0, hmeq] at h1 ⊢
        simp at h1 ⊢
        rw [h1]
        omega
      · simp only [runActorLoop, runOne, pureProcess, saveWithRetry,
          List.replicate_succ, List.length_cons, hm0, hmeq] at h1 h2 ⊢
        simp at h1 h2 ⊢
        rw [h2]
        omega

/-- C9: with `max_tasks` set to a positive value and a source yielding
more tasks than that, the loop stops after the cycle on which
`tasks_processed` reaches `max_tasks`: exactly `max_tasks` cycles are
executed (the counter ends at `max_tasks` and one task was saved per
executed cycle). -/
theorem max_tasks_stop (m : Nat) (tasks : List Task)
    (h1 : 0 < m) (h2 : m < tasks.length) :
    (runActor pureProcess none (fun _ => 0)
      { max_time := none, avg_time_factor := 0, max_tasks := m }
      (List.replicate tasks.length SaveResp.ok) initState
      tasks).state.tasks_processed = m ∧
    (runActor pureProcess none (fun _ => 0)
      { max_time := none, avg_time_factor := 0, max_tasks := m }
      (List.replicate tasks.length SaveResp.ok) initState
      tasks).savedTasks.length = m := by
  have h := runActorLoop_maxTasks m tasks initState
    (by simpa [initState] using h1)
  have hmin : min m (initState.tasks_processed + tasks.length) = m := by
    simp only [initState]
    omega
  refine ⟨h.1.trans hmin, h.2.trans ?_⟩
  rw [hmin]
  simp [initState]

/-- Witness for C9: `max_tasks = 3` against a 10-task source gives exactly
3 executed cycles. -/
theorem max_tasks_stop_witness :
    (runActor pureProcess none (fun _ => 0)
      { max_time := none, avg_time_factor := 0, max_tasks := 3 }
      (List.replicate (List.replicate 10 task1).length SaveResp.ok)
      initState (List.replicate 10 task1)).state.tasks_processed = 3 ∧
    (runActor pureProcess none (fun _ => 0)
      { max_time := none, avg_time_factor := 0, max_tasks := 3 }
      (List.replicate (List.replicate 10 task1).length SaveResp.ok)
      initState (List.replicate 10 task1)).savedTasks.length = 3 :=
  max_tasks_stop 3 (List.replicate 10 task1) (by decide) (by decide)

end Picas
